import Mathlib

/-!
Verification of the Slack event-dispatch endpoints of this repository
(`endpoints/slack-bot-next.py` and `endpoints/verify_only.py`).

The Python handlers are shallowly embedded as executable Lean functions:

* `pyJsonLoads` / `dumpsChallenge` model `json.loads` / `json.dumps` as used
  by the handlers (ASCII-faithful; see the local comments for the few
  unicode corners no claim exercises);
* `pyInt` models Python `int(str)`;
* `subMentionsStr` models `re.sub(r"<@\w+>\s*", "", text)` and `pyStripStr`
  models `str.strip()`;
* `slackInvoke` models `SlackEndpoint._invoke` and `verifyOnlyInvoke`
  models `VerifyOnlyEndpoint._invoke`.  Outbound calls (the Dify backend
  invocation and Slack `chat_postMessage`) are modelled by oracle functions
  giving each call's outcome, and the handler returns the produced response
  (or the Python exception that escapes) together with the trace of
  outbound calls it made.
-/

namespace SlackBotNext

/-- ASCII whitespace as treated by Python `str.strip`, `int(str)` and the
regex class `\s` (ASCII approximation of the unicode classes; every input
appearing in the claims is ASCII). -/
def isPySpace (c : Char) : Bool :=
  c = ' ' || c = '\t' || c = '\n' || c = '\r' || c = '\x0b' || c = '\x0c'

/-- Python `str.strip()` on a character list. -/
def pyStrip (l : List Char) : List Char :=
  ((l.dropWhile isPySpace).reverse.dropWhile isPySpace).reverse

/-- Python `str.strip()`. -/
def pyStripStr (s : String) : String :=
  String.mk (pyStrip s.data)

/-- Numeric value of an ASCII digit. -/
def digitVal (c : Char) : Nat := c.toNat - 48

/-- Digit run of a Python integer literal after its first digit:
`digit ( '_'? digit )*` (single underscores allowed between digits only). -/
def pyNatDigits : List Char → Nat → Option Nat
  | [], acc => some acc
  | '_' :: c :: rest, acc =>
      if c.isDigit then pyNatDigits rest (acc * 10 + digitVal c) else none
  | ['_'], _ => none
  | c :: rest, acc =>
      if c.isDigit then pyNatDigits rest (acc * 10 + digitVal c) else none

/-- Unsigned part of Python `int(str)`: at least one digit, underscores
between digits. -/
def pyIntStart : List Char → Option Nat
  | c :: rest => if c.isDigit then pyNatDigits rest (digitVal c) else none
  | [] => none

/-- Signed part of Python `int(str)` (after whitespace stripping). -/
def pyIntCore : List Char → Option Int
  | '+' :: rest => (pyIntStart rest).map Int.ofNat
  | '-' :: rest => (pyIntStart rest).map (fun n => -(Int.ofNat n))
  | l => (pyIntStart l).map Int.ofNat

/-- Python `int(s)` for a string argument: strips surrounding whitespace,
then an optional sign and a non-empty digit run; `none` models the
`ValueError` raised on any other shape. -/
def pyInt (s : String) : Option Int :=
  pyIntCore (pyStrip s.data)

/-- Parsed JSON values as produced by `json.loads`.  Numbers keep their
source lexeme (exact for integers, which is all the handlers could ever
serialize back in practice) together with their "equals zero" truthiness;
object entries are kept in parse order, duplicates included (lookup takes
the last binding, like a Python dict built by repeated assignment). -/
inductive Json where
  | null
  | bool (b : Bool)
  | num (lexeme : String) (isZero : Bool)
  | str (s : String)
  | arr (elems : List Json)
  | obj (entries : List (String × Json))

/-- JSON whitespace accepted between tokens by `json.loads`. -/
def jsonWs (c : Char) : Bool :=
  c = ' ' || c = '\t' || c = '\n' || c = '\r'

/-- Skip JSON inter-token whitespace. -/
def skipWs (l : List Char) : List Char := l.dropWhile jsonWs

/-- Value of one hexadecimal digit. -/
def hexDigitVal (c : Char) : Option Nat :=
  if '0' ≤ c ∧ c ≤ '9' then some (c.toNat - 48)
  else if 'a' ≤ c ∧ c ≤ 'f' then some (c.toNat - 87)
  else if 'A' ≤ c ∧ c ≤ 'F' then some (c.toNat - 55)
  else none

/-- Value of a `\uXXXX` escape's four hex digits. -/
def hex4 (a b c d : Char) : Option Nat :=
  match hexDigitVal a, hexDigitVal b, hexDigitVal c, hexDigitVal d with
  | some x, some y, some z, some w => some (((x * 16 + y) * 16 + z) * 16 + w)
  | _, _, _, _ => none

/-- Does a character list start with a backslash-u escape lead-in? -/
def startsWithUEscape : List Char → Bool
  | '\\' :: 'u' :: _ => true
  | _ => false

/-- Body of a JSON string literal after the opening quote, as scanned by
`json.loads` in strict mode: raw control characters are rejected, the short
escapes and `\uXXXX` are decoded, and a high/low surrogate escape pair is
combined into one scalar.  (A lone surrogate escape, which Python keeps as a
surrogate code unit, is mapped through `Char.ofNat`; no claim exercises
it.)  Returns the decoded characters and the rest after the closing quote.
Each recursive step consumes at least one character, so fuel equal to the
input length is exact and fuel exhaustion coincides with the unterminated
string error. -/
def parseStrBodyAux : Nat → List Char → Option (List Char × List Char)
  | _, [] => none
  | _, '"' :: rest => some ([], rest)
  | 0, _ => none
  | Nat.succ fuel, l =>
    match l with
    | '\\' :: '"' :: rest => (parseStrBodyAux fuel rest).map (fun p => ('"' :: p.1, p.2))
    | '\\' :: '\\' :: rest => (parseStrBodyAux fuel rest).map (fun p => ('\\' :: p.1, p.2))
    | '\\' :: '/' :: rest => (parseStrBodyAux fuel rest).map (fun p => ('/' :: p.1, p.2))
    | '\\' :: 'b' :: rest => (parseStrBodyAux fuel rest).map (fun p => ('\x08' :: p.1, p.2))
    | '\\' :: 'f' :: rest => (parseStrBodyAux fuel rest).map (fun p => ('\x0c' :: p.1, p.2))
    | '\\' :: 'n' :: rest => (parseStrBodyAux fuel rest).map (fun p => ('\n' :: p.1, p.2))
    | '\\' :: 'r' :: rest => (parseStrBodyAux fuel rest).map (fun p => ('\r' :: p.1, p.2))
    | '\\' :: 't' :: rest => (parseStrBodyAux fuel rest).map (fun p => ('\t' :: p.1, p.2))
    | '\\' :: 'u' :: a :: b :: c :: d :: '\\' :: 'u' :: a2 :: b2 :: c2 :: d2 :: rest2 =>
        (match hex4 a b c d with
         | none => none
         | some n =>
           if 0xd800 ≤ n ∧ n ≤ 0xdbff then
             match hex4 a2 b2 c2 d2 with
             | none => none
             | some m =>
               if 0xdc00 ≤ m ∧ m ≤ 0xdfff then
                 (parseStrBodyAux fuel rest2).map (fun p =>
                   (Char.ofNat (0x10000 + (n - 0xd800) * 0x400 + (m - 0xdc00)) :: p.1, p.2))
               else
                 (parseStrBodyAux fuel ('\\' :: 'u' :: a2 :: b2 :: c2 :: d2 :: rest2)).map
                   (fun p => (Char.ofNat n :: p.1, p.2))
           else
             (parseStrBodyAux fuel ('\\' :: 'u' :: a2 :: b2 :: c2 :: d2 :: rest2)).map
               (fun p => (Char.ofNat n :: p.1, p.2)))
    | '\\' :: 'u' :: a :: b :: c :: d :: rest =>
        (match hex4 a b c d with
         | none => none
         | some n =>
           if 0xd800 ≤ n ∧ n ≤ 0xdbff then
             if startsWithUEscape rest then none
             else (parseStrBodyAux fuel rest).map (fun p => (Char.ofNat n :: p.1, p.2))
           else
             (parseStrBodyAux fuel rest).map (fun p => (Char.ofNat n :: p.1, p.2)))
    | '\\' :: _ => none
    | c :: rest =>
        if c.toNat < 0x20 then none
        else (parseStrBodyAux fuel rest).map (fun p => (c :: p.1, p.2))
    | [] => none

/-- String-literal body scan with its exact fuel. -/
def parseStrBody (l : List Char) : Option (List Char × List Char) :=
  parseStrBodyAux l.length l

/-- Integer part of a JSON number: `0` or a nonzero digit followed by
digits (the regex group `(?:0|[1-9]\d*)`). -/
def parseIntPart : List Char → Option (List Char × List Char)
  | '0' :: r => some (['0'], r)
  | c :: r =>
      if c.isDigit then some (c :: r.takeWhile Char.isDigit, r.dropWhile Char.isDigit)
      else none
  | [] => none

/-- Fraction part of a JSON number (`(\.\d+)?`): consumed only when a dot
is followed by at least one digit, exactly like the scanner's regex. -/
def parseFracPart : List Char → Option (List Char) × List Char
  | '.' :: r =>
      match r.takeWhile Char.isDigit with
      | [] => (none, '.' :: r)
      | ds => (some ds, r.dropWhile Char.isDigit)
  | l => (none, l)

/-- Exponent part of a JSON number (`([eE][-+]?\d+)?`): returns the
consumed lexeme (possibly empty) and the rest. -/
def parseExpPart : List Char → List Char × List Char
  | e :: r =>
      if e = 'e' ∨ e = 'E' then
        match r with
        | s :: r2 =>
          if s = '+' ∨ s = '-' then
            match r2.takeWhile Char.isDigit with
            | [] => ([], e :: s :: r2)
            | ds => (e :: s :: ds, r2.dropWhile Char.isDigit)
          else
            match r.takeWhile Char.isDigit with
            | [] => ([], e :: r)
            | ds => (e :: ds, r.dropWhile Char.isDigit)
        | [] => ([], [e])
      else ([], e :: r)
  | [] => ([], [])

/-- Number after the optional leading minus sign. -/
def parseNumTail (neg : Bool) (r : List Char) : Option (Json × List Char) :=
  match parseIntPart r with
  | none => none
  | some (ip, r1) =>
    let (fr, r2) := parseFracPart r1
    let (ex, r3) := parseExpPart r2
    let lex := (if neg then ['-'] else []) ++ ip ++
      (match fr with | some ds => '.' :: ds | none => []) ++ ex
    let iz := ip == ['0'] &&
      (match fr with | some ds => ds.all (· == '0') | none => true)
    some (.num (String.mk lex) iz, r3)

/-- JSON number scanner (`NUMBER_RE` of the json module). -/
def parseNumber : List Char → Option (Json × List Char)
  | '-' :: r => parseNumTail true r
  | l => parseNumTail false l

mutual

/-- One JSON value, starting at the given characters (no leading
whitespace).  The fuel argument bounds the recursion depth; `pyJsonLoads`
passes more fuel than any input of that length can consume, so running out
of fuel is unreachable. -/
def parseValue : Nat → List Char → Option (Json × List Char)
  | 0, _ => none
  | Nat.succ fuel, l =>
    match l with
    | 'n' :: 'u' :: 'l' :: 'l' :: rest => some (.null, rest)
    | 't' :: 'r' :: 'u' :: 'e' :: rest => some (.bool true, rest)
    | 'f' :: 'a' :: 'l' :: 's' :: 'e' :: rest => some (.bool false, rest)
    | 'N' :: 'a' :: 'N' :: rest => some (.num "NaN" false, rest)
    | 'I' :: 'n' :: 'f' :: 'i' :: 'n' :: 'i' :: 't' :: 'y' :: rest =>
        some (.num "Infinity" false, rest)
    | '-' :: 'I' :: 'n' :: 'f' :: 'i' :: 'n' :: 'i' :: 't' :: 'y' :: rest =>
        some (.num "-Infinity" false, rest)
    | '"' :: rest => (parseStrBody rest).map (fun p => (.str (String.mk p.1), p.2))
    | '[' :: rest =>
      (match skipWs rest with
       | ']' :: r2 => some (.arr [], r2)
       | r2 => parseArrayItems fuel r2 [])
    | '{' :: rest =>
      (match skipWs rest with
       | '}' :: r2 => some (.obj [], r2)
       | r2 => parseObjItems fuel r2 [])
    | _ => parseNumber l

/-- Elements of a non-empty JSON array, accumulator in reverse order. -/
def parseArrayItems : Nat → List Char → List Json → Option (Json × List Char)
  | 0, _, _ => none
  | Nat.succ fuel, l, acc =>
    match parseValue fuel l with
    | none => none
    | some (v, rest) =>
      match skipWs rest with
      | ',' :: r2 => parseArrayItems fuel (skipWs r2) (v :: acc)
      | ']' :: r2 => some (.arr (v :: acc).reverse, r2)
      | _ => none

/-- Members of a non-empty JSON object, accumulator in reverse order. -/
def parseObjItems : Nat → List Char → List (String × Json) → Option (Json × List Char)
  | 0, _, _ => none
  | Nat.succ fuel, l, acc =>
    match l with
    | '"' :: rest =>
      match parseStrBody rest with
      | none => none
      | some (kcs, r1) =>
        match skipWs r1 with
        | ':' :: r2 =>
          match parseValue fuel (skipWs r2) with
          | none => none
          | some (v, r3) =>
            match skipWs r3 with
            | ',' :: r4 => parseObjItems fuel (skipWs r4) ((String.mk kcs, v) :: acc)
            | '}' :: r4 => some (.obj ((String.mk kcs, v) :: acc).reverse, r4)
            | _ => none
        | _ => none
    | _ => none

end

/-- Python `json.loads(s)`: skip leading whitespace, read one value, and
require only whitespace after it; `none` models `json.JSONDecodeError`.
The fuel `4 * length + 8` exceeds the number of recursive steps any input
of that length can drive (each step either consumes a character or is one
of at most two consecutive fuel-only hops). -/
def pyJsonLoads (s : String) : Option Json :=
  match parseValue (4 * s.length + 8) (skipWs s.data) with
  | some (v, rest) => if skipWs rest = [] then some v else none
  | none => none

/-- Lowercase hexadecimal digit, as printed by `json.dumps` escapes. -/
def hexDigitLower (n : Nat) : Char :=
  Char.ofNat (if n < 10 then 48 + n else 87 + n)

/-- A `\uXXXX` escape as emitted by `json.dumps(ensure_ascii=True)`. -/
def u4Escape (n : Nat) : List Char :=
  ['\\', 'u', hexDigitLower (n / 4096 % 16), hexDigitLower (n / 256 % 16),
   hexDigitLower (n / 16 % 16), hexDigitLower (n % 16)]

/-- Escaping of one character inside a `json.dumps` string literal with the
default `ensure_ascii=True`: printable ASCII other than quote and backslash
passes through, the seven short escapes are used where defined, and every
other character becomes `\uXXXX` (a surrogate pair for astral planes). -/
def escapeChar (c : Char) : List Char :=
  if c = '"' then ['\\', '"']
  else if c = '\\' then ['\\', '\\']
  else if c = '\n' then ['\\', 'n']
  else if c = '\r' then ['\\', 'r']
  else if c = '\t' then ['\\', 't']
  else if c.toNat = 8 then ['\\', 'b']
  else if c.toNat = 12 then ['\\', 'f']
  else if 0x20 ≤ c.toNat ∧ c.toNat ≤ 0x7e then [c]
  else if c.toNat < 0x10000 then u4Escape c.toNat
  else u4Escape (0xd800 + (c.toNat - 0x10000) / 0x400) ++
       u4Escape (0xdc00 + (c.toNat - 0x10000) % 0x400)

/-- A `json.dumps` string literal (quotes included). -/
def dumpStringLit (s : String) : String :=
  String.mk ('"' :: (s.data.map escapeChar).flatten ++ ['"'])

mutual

/-- Serialization of a parsed value by `json.dumps` with default options
(separators `", "` and `": "`, `ensure_ascii=True`).  Integer lexemes
round-trip exactly (`-0` normalizes to `0` like Python's int); float
lexemes are kept as parsed, an approximation of float `repr` in a corner no
claim reaches (the handlers only ever serialize the challenge value, a
string in every claim). -/
def dumpJson : Json → String
  | .null => "null"
  | .bool true => "true"
  | .bool false => "false"
  | .num lex _ => if lex = "-0" then "0" else lex
  | .str s => dumpStringLit s
  | .arr l => "[" ++ dumpJsonArr l ++ "]"
  | .obj l => "\x7b" ++ dumpJsonObj l ++ "\x7d"

/-- Comma-separated array elements. -/
def dumpJsonArr : List Json → String
  | [] => ""
  | [v] => dumpJson v
  | v :: vs => dumpJson v ++ ", " ++ dumpJsonArr vs

/-- Comma-separated object members. -/
def dumpJsonObj : List (String × Json) → String
  | [] => ""
  | [(k, v)] => dumpStringLit k ++ ": " ++ dumpJson v
  | (k, v) :: es => dumpStringLit k ++ ": " ++ dumpJson v ++ ", " ++ dumpJsonObj es

end

/-- The response body `json.dumps(\x7b"challenge": challenge_value\x7d)`
built by both handlers' `url_verification` branch. -/
def dumpsChallenge (v : Json) : String :=
  "\x7b\"challenge\": " ++ dumpJson v ++ "\x7d"

/-- Python truthiness of a parsed JSON value (`bool(x)`). -/
def jTruthy : Json → Bool
  | .null => false
  | .bool b => b
  | .num _ isZero => !isZero
  | .str s => !(s == "")
  | .arr l => !l.isEmpty
  | .obj l => !l.isEmpty

/-- Python truthiness of a `dict.get` result (`None` is falsy). -/
def pyTruthyOpt : Option Json → Bool
  | none => false
  | some j => jTruthy j

/-- Python `dict.get(k)` on the parsed entry list: the last binding of a
duplicated key wins, as in a dict built by repeated assignment. -/
def oget (es : List (String × Json)) (k : String) : Option Json :=
  (es.reverse.find? (fun p => p.1 == k)).map (fun p => p.2)

/-- Python exceptions that can escape the handlers in this model. -/
inductive PyExn where
  | valueError
  | attributeError
  | typeError
deriving DecidableEq

/-- Python `x.get(k)` where `x` is a parsed JSON value: an `AttributeError`
unless `x` is a dict. -/
def pyGet (j : Json) (k : String) : Except PyExn (Option Json) :=
  match j with
  | .obj es => .ok (oget es k)
  | _ => .error .attributeError

/-- Python `x == s` for a `dict.get` result against a string literal. -/
def isStrVal (o : Option Json) (s : String) : Bool :=
  match o with
  | some (.str t) => t == s
  | _ => false

/-- Python `x is not None` for a `dict.get` result (a JSON `null` value is
`None` in Python). -/
def isNotNone : Option Json → Bool
  | none => false
  | some .null => false
  | some _ => true

/-- The regex class `\w` (ASCII approximation; Slack ids are ASCII). -/
def isWordChar (c : Char) : Bool := c.isAlphanum || c = '_'

/-- One match of `<@\w+>\s*` at the head of the list: `<@`, a maximal
non-empty word-character run, `>`, then greedy whitespace.  Returns the
rest after the match. -/
def matchMention : List Char → Option (List Char)
  | '<' :: '@' :: c :: rest =>
      if isWordChar c then
        match (c :: rest).dropWhile isWordChar with
        | '>' :: r2 => some (r2.dropWhile isPySpace)
        | _ => none
      else none
  | _ => none

/-- Scan of `re.sub(r"<@\w+>\s*", "", ·)`: leftmost non-overlapping
matches anywhere in the text are removed.  Each step consumes at least one
character, so fuel equal to the length is exact. -/
def subMentionsAux : Nat → List Char → List Char
  | 0, l => l
  | Nat.succ fuel, l =>
    match matchMention l with
    | some rest => subMentionsAux fuel rest
    | none =>
      match l with
      | [] => []
      | c :: cs => c :: subMentionsAux fuel cs

/-- Python `re.sub(r"<@\w+>\s*", "", s)`. -/
def subMentionsStr (s : String) : String :=
  String.mk (subMentionsAux s.data.length s.data)

/-- The inbound request: raw body text and the two headers the handler
reads (werkzeug header lookup is case-insensitive; absent headers are
`none`). -/
structure SlackRequest where
  body : String
  retryNum : Option String
  retryReason : Option String

/-- A werkzeug `Response` as constructed by the handlers: status, body
text, and the content type when one is passed explicitly. -/
structure HttpResponse where
  status : Nat
  body : String
  contentType : Option String
deriving DecidableEq

/-- The `app` mapping of the plugin settings (`app-selector` value);
`app_id` is `none` when absent. -/
structure AppConfig where
  app_id : Option String

/-- The plugin settings mapping as read by the handler:
`settings.get("allow_retry", False)`, `settings.get("bot_token")` and
`settings.get("app")`. -/
structure Settings where
  allow_retry : Bool
  bot_token : Option String
  app : Option AppConfig

/-- One invocation of `self.session.app.chat.invoke`. -/
structure BackendCall where
  app_id : String
  query : Json
  inputs : List (String × Json)
  response_mode : String

/-- Outcome of a backend invocation: a response dict with an optional
`answer` field, or an exception (`except Exception` in the source). -/
inductive BackendResult where
  | ok (answer : Option String)
  | exn

/-- One `client.chat_postMessage(channel=..., text=...)` call. -/
structure SlackPost where
  channel : Json
  text : String

/-- Outcome of a Slack post: success, or a `SlackApiError` carrying the
API error code — the typed failure mode of the messaging client per the
external interface contract. -/
inductive SlackResult where
  | ok
  | apiError (code : String)

/-- Trace of the outbound calls a handler run makes, in order. -/
structure Trace where
  backendCalls : List BackendCall
  slackPosts : List SlackPost

/-- The empty trace. -/
def emptyTrace : Trace := ⟨[], []⟩

/-- `Response(status=..., response=...)` with the default content type. -/
def respond (status : Nat) (body : String) : HttpResponse :=
  ⟨status, body, none⟩

/-- `Response(response=..., status=200, content_type="application/json")`. -/
def jsonResponse (body : String) : HttpResponse :=
  ⟨200, body, some "application/json"⟩

/-- Fixed text of the configuration-error notification (source line 114). -/
def configErrorText : String :=
  "Configuration Error: The target Dify App is not set correctly in the plugin settings."

/-- Fixed text of the internal-error notification (source line 159). -/
def internalErrorText : String :=
  "Sorry, an internal error occurred while processing your request. Please contact the administrator."

/-- Default answer when the backend response has no `answer` field. -/
def noAnswerText : String := "Sorry, I could not get a response from the App."

/-- The `app_id` actually used when the settings pass the guard
`not app_settings or not app_settings.get("app_id")` (falsy values fail
it). -/
def appIdSetting (settings : Settings) : Option String :=
  match settings.app with
  | none => none
  | some cfg =>
    match cfg.app_id with
    | none => none
    | some a => if a = "" then none else some a

/-- Source lines 100-163: configuration checks, backend invocation and
reply delivery for a processable event with extracted channel and
message. -/
def processStep (settings : Settings) (backend : BackendCall → BackendResult)
    (slack : SlackPost → SlackResult) (channel message : Json) :
    Except PyExn HttpResponse × Trace :=
  match settings.bot_token with
  | none => (.ok (respond 200 "ok, missing bot token setting"), emptyTrace)
  | some token =>
    if token = "" then (.ok (respond 200 "ok, missing bot token setting"), emptyTrace)
    else
      match appIdSetting settings with
      | none =>
        (.ok (respond 200 "ok, missing app_id setting"),
         ⟨[], [⟨channel, configErrorText⟩]⟩)
      | some dify_app_id =>
        match backend ⟨dify_app_id, message, [], "blocking"⟩ with
        | .exn =>
          (.ok (respond 200 "ok, internal server error"),
           ⟨[⟨dify_app_id, message, [], "blocking"⟩], [⟨channel, internalErrorText⟩]⟩)
        | .ok answerOpt =>
          match slack ⟨channel, answerOpt.getD noAnswerText⟩ with
          | .ok =>
            (.ok (respond 200 "ok, message sent"),
             ⟨[⟨dify_app_id, message, [], "blocking"⟩], [⟨channel, answerOpt.getD noAnswerText⟩]⟩)
          | .apiError _ =>
            (.ok (respond 200 "ok, slack api error posting message"),
             ⟨[⟨dify_app_id, message, [], "blocking"⟩], [⟨channel, answerOpt.getD noAnswerText⟩]⟩)

/-- Source lines 71-167: one `event_callback` event (already known
truthy): bot filtering, message extraction, then `processStep`. -/
def eventStep (settings : Settings) (backend : BackendCall → BackendResult)
    (slack : SlackPost → SlackResult) (ev : Json) :
    Except PyExn HttpResponse × Trace :=
  match ev with
  | .obj es =>
    if isNotNone (oget es "bot_id") then
      (.ok (respond 200 "ok, ignored bot message"), emptyTrace)
    else
      if isStrVal (oget es "type") "app_mention" then
        match (oget es "text").getD (.str "") with
        | .str raw =>
          if pyStripStr (subMentionsStr raw) = "" then
            (.ok (respond 200 "ok, no action needed"), emptyTrace)
          else
            processStep settings backend slack ((oget es "channel").getD (.str ""))
              (.str (pyStripStr (subMentionsStr raw)))
        | _ => (.error .typeError, emptyTrace)
      else if isStrVal (oget es "type") "message" &&
          isStrVal (oget es "channel_type") "im" then
        if jTruthy ((oget es "text").getD (.str "")) then
          processStep settings backend slack ((oget es "channel").getD (.str ""))
            ((oget es "text").getD (.str ""))
        else (.ok (respond 200 "ok, no action needed"), emptyTrace)
      else (.ok (respond 200 "ok, no action needed"), emptyTrace)
  | _ => (.error .attributeError, emptyTrace)

/-- Source lines 64-172: dispatch on `event_callback` after the retry
check. -/
def afterRetry (settings : Settings) (backend : BackendCall → BackendResult)
    (slack : SlackPost → SlackResult) (data : Option Json) :
    Except PyExn HttpResponse × Trace :=
  match data with
  | none => (.ok (respond 200 "ok, ignored request type"), emptyTrace)
  | some d =>
    if jTruthy d then
      match pyGet d "type" with
      | .error e => (.error e, emptyTrace)
      | .ok ty =>
        if isStrVal ty "event_callback" then
          match pyGet d "event" with
          | .error e => (.error e, emptyTrace)
          | .ok evOpt =>
            match evOpt with
            | none => (.ok (respond 200 "ok, missing event field"), emptyTrace)
            | some ev =>
              if jTruthy ev then eventStep settings backend slack ev
              else (.ok (respond 200 "ok, missing event field"), emptyTrace)
        else (.ok (respond 200 "ok, ignored request type"), emptyTrace)
    else (.ok (respond 200 "ok, ignored request type"), emptyTrace)

/-- Source lines 52-62: the retry-suppression check, with Python's
left-to-right short-circuit evaluation — `int(retry_num)` runs (and can
raise `ValueError`) only when `allow_retry` is falsy and the retry reason
is not `http_timeout`. -/
def afterVerification (r : SlackRequest) (settings : Settings)
    (backend : BackendCall → BackendResult) (slack : SlackPost → SlackResult)
    (data : Option Json) : Except PyExn HttpResponse × Trace :=
  if settings.allow_retry then afterRetry settings backend slack data
  else if r.retryReason = some "http_timeout" then
    (.ok (respond 200 "ok, retry ignored"), emptyTrace)
  else
    match r.retryNum with
    | none => afterRetry settings backend slack data
    | some s =>
      match pyInt s with
      | none => (.error .valueError, emptyTrace)
      | some n =>
        if 0 < n then (.ok (respond 200 "ok, retry ignored"), emptyTrace)
        else afterRetry settings backend slack data

/-- Source lines 35-50: the URL-verification branch, checked before the
retry suppression. -/
def afterParse (r : SlackRequest) (settings : Settings)
    (backend : BackendCall → BackendResult) (slack : SlackPost → SlackResult)
    (data : Option Json) : Except PyExn HttpResponse × Trace :=
  match data with
  | some d =>
    if jTruthy d then
      match pyGet d "type" with
      | .error e => (.error e, emptyTrace)
      | .ok ty =>
        if isStrVal ty "url_verification" then
          match pyGet d "challenge" with
          | .error e => (.error e, emptyTrace)
          | .ok ch =>
            if pyTruthyOpt ch then
              (.ok (jsonResponse (dumpsChallenge (ch.getD .null))), emptyTrace)
            else
              (.ok (respond 400
                "Bad Request: Missing \x27challenge\x27 parameter for url_verification."),
               emptyTrace)
        else afterVerification r settings backend slack data
    else afterVerification r settings backend slack data
  | none => afterVerification r settings backend slack data

/-- `SlackEndpoint._invoke` of `endpoints/slack-bot-next.py`: body read and
JSON decoding (an empty body is not parsed and leaves `data = None`), then
the verification, retry and event stages.  Returns the response produced,
or the Python exception escaping the handler, together with the outbound
calls made. -/
def slackInvoke (r : SlackRequest) (settings : Settings)
    (backend : BackendCall → BackendResult) (slack : SlackPost → SlackResult) :
    Except PyExn HttpResponse × Trace :=
  if r.body = "" then afterParse r settings backend slack none
  else
    match pyJsonLoads r.body with
    | none => (.ok (respond 400 "Bad Request: Invalid JSON"), emptyTrace)
    | some j => afterParse r settings backend slack (some j)

/-- `VerifyOnlyEndpoint._invoke` of `endpoints/verify_only.py`: rejects an
empty body with 400, then handles only the verification handshake.  It
makes no outbound calls. -/
def verifyOnlyInvoke (r : SlackRequest) : Except PyExn HttpResponse :=
  if r.body = "" then .ok (respond 400 "Bad Request: Empty body")
  else
    match pyJsonLoads r.body with
    | none => .ok (respond 400 "Bad Request: Invalid JSON")
    | some d =>
      if jTruthy d then
        match pyGet d "type" with
        | .error e => .error e
        | .ok ty =>
          if isStrVal ty "url_verification" then
            match pyGet d "challenge" with
            | .error e => .error e
            | .ok ch =>
              if pyTruthyOpt ch then .ok (jsonResponse (dumpsChallenge (ch.getD .null)))
              else .ok (respond 400 "Bad Request: Missing \x27challenge\x27 parameter")
          else .ok (respond 200 "ok, ignored (not url_verification)")
      else .ok (respond 200 "ok, ignored (not url_verification)")

/-! Spec-side definitions, used to state claims against the embedding. -/

/-- Stripping only the LEADING mention tokens of a text, following the
spec's words for step 5 ("strip every leading mention token matching
pattern `<@` + word-characters + `>` (optionally followed by whitespace),
trim surrounding whitespace"), for comparison with the source's global
`re.sub`. -/
def leadingStripAux : Nat → List Char → List Char
  | 0, l => l
  | Nat.succ fuel, l =>
    match matchMention l with
    | some rest => leadingStripAux fuel rest
    | none => l

/-- Leading-mention stripping followed by whitespace trimming, as the spec
words step 5. -/
def specLeadingMentionStrip (s : String) : String :=
  String.mk (pyStrip (leadingStripAux s.data.length s.data))

/-- The `X-Slack-Retry-Num` header, when present, is a valid Python
integer literal (so `int(retry_num)` cannot raise). -/
def retryNumOk (o : Option String) : Bool :=
  match o with
  | none => true
  | some s => (pyInt s).isSome

/-- A `text` value `re.sub` can accept: absent, or a string. -/
def textValueOk : Option Json → Bool
  | some (.str _) => true
  | none => true
  | some _ => false

/-- On an `app_mention` event the `text` field, when present, is a string
(`re.sub` raises `TypeError` on any other type). -/
def appMentionTextOk (evs : List (String × Json)) : Bool :=
  if isStrVal (oget evs "type") "app_mention" then textValueOk (oget evs "text")
  else true

/-- A truthy `event` value must be an object with well-typed text. -/
def eventValueOk : Option Json → Bool
  | none => true
  | some ev =>
    if jTruthy ev then
      match ev with
      | .obj evs => appMentionTextOk evs
      | _ => false
    else true

/-- On an `event_callback` payload the `event` field is well-shaped. -/
def eventFieldOk (es : List (String × Json)) : Bool :=
  if isStrVal (oget es "type") "event_callback" then eventValueOk (oget es "event")
  else true

/-- A truthy payload must be an object (else `.get` raises). -/
def truthyPayloadOk : Json → Bool
  | .obj es => eventFieldOk es
  | _ => false

/-- Shape assumptions under which no attribute or type error can fire: a
truthy parsed payload is an object and its event field is well-shaped. -/
def payloadShapeOk : Option Json → Bool
  | none => true
  | some d => if jTruthy d then truthyPayloadOk d else true

/-- The parsed body value (`None` for an empty body, the parse result
otherwise; `none` also stands for the parse-failure case, which the caller
distinguishes via `pyJsonLoads`). -/
def parsedData (r : SlackRequest) : Option Json :=
  if r.body = "" then none else pyJsonLoads r.body

/-- Is the parsed payload a truthy JSON object of type `url_verification`?
(The shape that reaches the challenge branch without raising.) -/
def isUrlVerificationObj (data : Option Json) : Bool :=
  match data with
  | some (.obj es) => jTruthy (.obj es) && isStrVal (oget es "type") "url_verification"
  | _ => false

/-- Does the payload lack a truthy `challenge` value? -/
def challengeMissing (data : Option Json) : Bool :=
  match data with
  | some (.obj es) => !pyTruthyOpt (oget es "challenge")
  | _ => true

/-! Concrete request and oracle material shared by witnesses and
counterexamples. -/

/-- A backend oracle that always answers. -/
def backendOk : BackendCall → BackendResult := fun _ => .ok (some "ANSWER")

/-- A backend oracle that always raises. -/
def backendRaise : BackendCall → BackendResult := fun _ => .exn

/-- A Slack oracle whose posts succeed. -/
def slackOk : SlackPost → SlackResult := fun _ => .ok

/-- A Slack oracle whose posts fail with a `SlackApiError`. -/
def slackFail : SlackPost → SlackResult := fun _ => .apiError "channel_not_found"

/-- Fully configured settings (retries disallowed, token and app set). -/
def settingsFull : Settings := ⟨false, some "tok", some ⟨some "app1"⟩⟩

/-- A url_verification body with challenge `"abc"`. -/
def challengeBody : String :=
  "\x7b\"type\": \"url_verification\", \"challenge\": \"abc\"\x7d"

/-- An `event_callback` body with an `app_mention` whose text is the
spec's example `"<@U123> hello there"`. -/
def mentionBody : String :=
  "\x7b\"type\": \"event_callback\", \"event\": \x7b\"type\": \"app_mention\", \"text\": \"<@U123> hello there\", \"channel\": \"C1\"\x7d\x7d"

/-- An `event_callback` body with an `app_mention` whose text carries a
mention token in the MIDDLE: `"a <@U1> b"`. -/
def mentionMidBody : String :=
  "\x7b\"type\": \"event_callback\", \"event\": \x7b\"type\": \"app_mention\", \"text\": \"a <@U1> b\", \"channel\": \"C1\"\x7d\x7d"

/-- An `event_callback` body with a direct message (`message`/`im`). -/
def dmBody : String :=
  "\x7b\"type\": \"event_callback\", \"event\": \x7b\"type\": \"message\", \"channel_type\": \"im\", \"text\": \"hi\", \"channel\": \"D1\"\x7d\x7d"

/-- The retry-suppression check falls through (lines 52-62 reach the event
stage): retries allowed, or no suppressing header present. -/
def retryBypassed (r : SlackRequest) (settings : Settings) : Prop :=
  settings.allow_retry = true ∨
  (¬ r.retryReason = some "http_timeout" ∧
    (r.retryNum = none ∨
     ∃ s n, r.retryNum = some s ∧ pyInt s = some n ∧ ¬ 0 < n))

/-- Both components of the outbound-call bound, as one predicate. -/
def TraceBound (t : Trace) : Prop :=
  t.backendCalls.length ≤ 1 ∧ t.slackPosts.length ≤ 1

/-- The two processable event shapes of step 5 with their extracted
message: an `app_mention` with non-empty mention-stripped text, or a
direct message (`message` in an `im` channel) with truthy text. -/
def processableEvent (evs : List (String × Json)) (message : Json) : Prop :=
  (∃ T, oget evs "type" = some (.str "app_mention") ∧
    oget evs "text" = some (.str T) ∧
    ¬ pyStripStr (subMentionsStr T) = "" ∧
    message = .str (pyStripStr (subMentionsStr T))) ∨
  (oget evs "type" = some (.str "message") ∧
    oget evs "channel_type" = some (.str "im") ∧
    oget evs "text" = some message ∧ jTruthy message = true)

/-! Small facts about the embedding used when following branches. -/

theorem pyJsonLoads_empty : pyJsonLoads "" = none := rfl

theorem oget_ne_nil {es : List (String × Json)} {k : String} {v : Json}
    (h : oget es k = some v) : es ≠ [] := by
  intro he
  subst he
  simp [oget] at h

theorem jTruthy_obj_of_oget {es : List (String × Json)} {k : String} {v : Json}
    (h : oget es k = some v) : jTruthy (.obj es) = true := by
  have := oget_ne_nil h
  cases es with
  | nil => exact absurd rfl this
  | cons e es => simp [jTruthy]

theorem body_ne_empty_of_parse {r : SlackRequest} {j : Json}
    (h : pyJsonLoads r.body = some j) : ¬ r.body = "" := by
  intro he
  rw [he, pyJsonLoads_empty] at h
  exact Option.noConfusion h

theorem exists_of_isNotNone {o : Option Json} (h : isNotNone o = true) :
    ∃ v, o = some v := by
  cases o with
  | none => simp [isNotNone] at h
  | some v => exact ⟨v, rfl⟩

/-- Shared branch computation: a parsed object of type `url_verification`
with a truthy challenge makes `SlackEndpoint._invoke` return the challenge
echo before anything else runs. -/
theorem slackInvoke_challenge (r : SlackRequest) (settings : Settings)
    (backend : BackendCall → BackendResult) (slack : SlackPost → SlackResult)
    (es : List (String × Json)) (C : String)
    (hparse : pyJsonLoads r.body = some (.obj es))
    (hty : oget es "type" = some (.str "url_verification"))
    (hch : oget es "challenge" = some (.str C))
    (hC : C ≠ "") :
    slackInvoke r settings backend slack =
      (.ok ⟨200, dumpsChallenge (.str C), some "application/json"⟩, emptyTrace) := by
  have hbody := body_ne_empty_of_parse hparse
  have htr := jTruthy_obj_of_oget hty
  simp only [slackInvoke, if_neg hbody, hparse]
  simp only [afterParse, htr, if_true, pyGet, hty, hch]
  simp [isStrVal, pyTruthyOpt, jTruthy, hC, jsonResponse]

/-- Shared branch computation for `VerifyOnlyEndpoint._invoke`. -/
theorem verifyOnly_challenge (r : SlackRequest)
    (es : List (String × Json)) (C : String)
    (hparse : pyJsonLoads r.body = some (.obj es))
    (hty : oget es "type" = some (.str "url_verification"))
    (hch : oget es "challenge" = some (.str C))
    (hC : C ≠ "") :
    verifyOnlyInvoke r =
      .ok ⟨200, dumpsChallenge (.str C), some "application/json"⟩ := by
  have hbody := body_ne_empty_of_parse hparse
  have htr := jTruthy_obj_of_oget hty
  simp only [verifyOnlyInvoke, if_neg hbody, hparse]
  simp only [htr, if_true, pyGet, hty, hch]
  simp [isStrVal, pyTruthyOpt, jTruthy, hC, jsonResponse]

/-- C1: for every request whose body parses as a JSON object with
`type == "url_verification"` and a non-empty challenge string `C`, both
handlers return status 200 with content type `application/json` and body
exactly `json.dumps` of `\x7b"challenge": C\x7d`, the challenge string
unchanged inside it, making no outbound calls. -/
theorem url_verification_challenge_echo (r : SlackRequest) (settings : Settings)
    (backend : BackendCall → BackendResult) (slack : SlackPost → SlackResult)
    (es : List (String × Json)) (C : String)
    (hparse : pyJsonLoads r.body = some (.obj es))
    (hty : oget es "type" = some (.str "url_verification"))
    (hch : oget es "challenge" = some (.str C))
    (hC : C ≠ "") :
    slackInvoke r settings backend slack =
      (.ok ⟨200, dumpsChallenge (.str C), some "application/json"⟩, emptyTrace) ∧
    verifyOnlyInvoke r =
      .ok ⟨200, dumpsChallenge (.str C), some "application/json"⟩ :=
  ⟨slackInvoke_challenge r settings backend slack es C hparse hty hch hC,
   verifyOnly_challenge r es C hparse hty hch hC⟩

/-- Witness for C1 at the concrete body
`\x7b"type": "url_verification", "challenge": "abc"\x7d` (with retry
headers present, which must not matter). -/
theorem url_verification_challenge_echo_witness :
    slackInvoke ⟨challengeBody, some "2", some "http_timeout"⟩ settingsFull backendOk slackOk =
      (.ok ⟨200, dumpsChallenge (.str "abc"), some "application/json"⟩, emptyTrace) ∧
    verifyOnlyInvoke ⟨challengeBody, some "2", some "http_timeout"⟩ =
      .ok ⟨200, dumpsChallenge (.str "abc"), some "application/json"⟩ :=
  url_verification_challenge_echo ⟨challengeBody, some "2", some "http_timeout"⟩
    settingsFull backendOk slackOk
    [("type", .str "url_verification"), ("challenge", .str "abc")] "abc"
    rfl rfl rfl (by decide)

/-- C4: the challenge check takes precedence over retry suppression — with
`allow_retry` false and a retry header present, a url_verification payload
with non-empty challenge still gets the challenge echo, not the
retry-ignored acknowledgement. -/
theorem challenge_precedes_retry (r : SlackRequest) (settings : Settings)
    (backend : BackendCall → BackendResult) (slack : SlackPost → SlackResult)
    (es : List (String × Json)) (C : String)
    (hparse : pyJsonLoads r.body = some (.obj es))
    (hty : oget es "type" = some (.str "url_verification"))
    (hch : oget es "challenge" = some (.str C))
    (hC : C ≠ "")
    (hallow : settings.allow_retry = false)
    (hretry : r.retryReason = some "http_timeout" ∨
      ∃ s n, r.retryNum = some s ∧ pyInt s = some n ∧ 0 < n) :
    (slackInvoke r settings backend slack).1 =
      .ok ⟨200, dumpsChallenge (.str C), some "application/json"⟩ ∧
    (slackInvoke r settings backend slack).1 ≠ .ok (respond 200 "ok, retry ignored") := by
  have h := slackInvoke_challenge r settings backend slack es C hparse hty hch hC
  rw [h]
  refine ⟨rfl, ?_⟩
  intro hcon
  simp [respond] at hcon

/-- Witness for C4: a challenge request carrying `X-Slack-Retry-Num: "3"`
under `allow_retry = false` is still answered with the challenge echo. -/
theorem challenge_precedes_retry_witness :
    (slackInvoke ⟨challengeBody, some "3", none⟩ settingsFull backendOk slackOk).1 =
      .ok ⟨200, dumpsChallenge (.str "abc"), some "application/json"⟩ ∧
    (slackInvoke ⟨challengeBody, some "3", none⟩ settingsFull backendOk slackOk).1 ≠
      .ok (respond 200 "ok, retry ignored") :=
  challenge_precedes_retry ⟨challengeBody, some "3", none⟩ settingsFull backendOk slackOk
    [("type", .str "url_verification"), ("challenge", .str "abc")] "abc"
    rfl rfl rfl (by decide) rfl (Or.inr ⟨"3", 3, rfl, rfl, by decide⟩)

/-- C5: a non-verification JSON-object request with `allow_retry` false and
a retry header (`X-Slack-Retry-Reason: http_timeout`, or `X-Slack-Retry-Num`
parsing to a positive integer) is answered 200 with the fixed
acknowledgement immediately, with no backend and no messaging call. -/
theorem retry_suppressed_ack (r : SlackRequest) (settings : Settings)
    (backend : BackendCall → BackendResult) (slack : SlackPost → SlackResult)
    (es : List (String × Json))
    (hparse : pyJsonLoads r.body = some (.obj es))
    (hnotverif : isStrVal (oget es "type") "url_verification" = false)
    (hallow : settings.allow_retry = false)
    (hretry : r.retryReason = some "http_timeout" ∨
      ∃ s n, r.retryNum = some s ∧ pyInt s = some n ∧ 0 < n) :
    slackInvoke r settings backend slack =
      (.ok (respond 200 "ok, retry ignored"), emptyTrace) := by
  have hbody := body_ne_empty_of_parse hparse
  have hAV : afterVerification r settings backend slack (some (.obj es)) =
      (.ok (respond 200 "ok, retry ignored"), emptyTrace) := by
    by_cases hr : r.retryReason = some "http_timeout"
    · simp [afterVerification, hallow, hr]
    · rcases hretry with h | ⟨s, n, hs, hpi, hn⟩
      · exact absurd h hr
      · simp [afterVerification, hallow, hr, hs, hpi, hn]
  simp only [slackInvoke, if_neg hbody, hparse]
  by_cases ht : jTruthy (.obj es)
  · simp only [afterParse, ht, if_true, pyGet, hnotverif]
    simpa using hAV
  · simp only [afterParse]
    simp only [Bool.not_eq_true] at ht
    rw [ht]
    simpa using hAV

/-- Witness for C5: `X-Slack-Retry-Num: "1"`, `allow_retry = false`, body
`\x7b"type": "x"\x7d` is acknowledged with no outbound call. -/
theorem retry_suppressed_ack_witness :
    slackInvoke ⟨"\x7b\"type\": \"x\"\x7d", some "1", none⟩ settingsFull backendOk slackOk =
      (.ok (respond 200 "ok, retry ignored"), emptyTrace) :=
  retry_suppressed_ack ⟨"\x7b\"type\": \"x\"\x7d", some "1", none⟩ settingsFull backendOk slackOk
    [("type", .str "x")] rfl rfl rfl (Or.inr ⟨"1", 1, rfl, rfl, by decide⟩)

/-- C7: an `event_callback` whose event carries a non-null `bot_id` is
answered 200 with no backend and no messaging call, whatever the event's
type, text or channel_type (given a parseable retry-num header, which the
handler reads first). -/
theorem bot_event_ignored (r : SlackRequest) (settings : Settings)
    (backend : BackendCall → BackendResult) (slack : SlackPost → SlackResult)
    (es evs : List (String × Json))
    (hparse : pyJsonLoads r.body = some (.obj es))
    (hty : oget es "type" = some (.str "event_callback"))
    (hev : oget es "event" = some (.obj evs))
    (hbot : isNotNone (oget evs "bot_id") = true)
    (hnum : retryNumOk r.retryNum = true) :
    (slackInvoke r settings backend slack).2 = emptyTrace ∧
    ∃ resp, (slackInvoke r settings backend slack).1 = .ok resp ∧ resp.status = 200 := by
  have hbody := body_ne_empty_of_parse hparse
  have htr := jTruthy_obj_of_oget hty
  obtain ⟨v, hv⟩ := exists_of_isNotNone hbot
  have htrev : jTruthy (.obj evs) = true := jTruthy_obj_of_oget hv
  have hES : eventStep settings backend slack (.obj evs) =
      (.ok (respond 200 "ok, ignored bot message"), emptyTrace) := by
    simp [eventStep, hbot]
  have hAR : afterRetry settings backend slack (some (.obj es)) =
      (.ok (respond 200 "ok, ignored bot message"), emptyTrace) := by
    simp only [afterRetry, htr, if_true, pyGet, hty, hev]
    simp [isStrVal, htrev, hES]
  have hAP : slackInvoke r settings backend slack =
      afterVerification r settings backend slack (some (.obj es)) := by
    simp only [slackInvoke, if_neg hbody, hparse]
    simp only [afterParse, htr, if_true, pyGet, hty]
    simp [isStrVal]
  rw [hAP]
  by_cases ha : settings.allow_retry
  · simp [afterVerification, ha, hAR, respond]
  · by_cases hr : r.retryReason = some "http_timeout"
    · simp [afterVerification, ha, hr, respond, emptyTrace]
    · cases hn : r.retryNum with
      | none => simp [afterVerification, ha, hr, hn, hAR, respond]
      | some s =>
        rw [hn] at hnum
        simp only [retryNumOk] at hnum
        cases hpi : pyInt s with
        | none => rw [hpi] at hnum; simp at hnum
        | some n =>
          by_cases hpos : 0 < n
          · simp [afterVerification, ha, hr, hn, hpi, hpos, respond, emptyTrace]
          · simp [afterVerification, ha, hr, hn, hpi, hpos, hAR, respond]

/-- Witness for C7: a bot-authored `app_mention` event is ignored with no
outbound calls. -/
theorem bot_event_ignored_witness :
    (slackInvoke ⟨"\x7b\"type\": \"event_callback\", \"event\": \x7b\"type\": \"app_mention\", \"text\": \"<@U123> hi\", \"bot_id\": \"B9\", \"channel\": \"C1\"\x7d\x7d", none, none⟩ settingsFull backendOk slackOk).2 = emptyTrace ∧
    ∃ resp, (slackInvoke ⟨"\x7b\"type\": \"event_callback\", \"event\": \x7b\"type\": \"app_mention\", \"text\": \"<@U123> hi\", \"bot_id\": \"B9\", \"channel\": \"C1\"\x7d\x7d", none, none⟩ settingsFull backendOk slackOk).1 = .ok resp ∧ resp.status = 200 :=
  bot_event_ignored _ settingsFull backendOk slackOk
    [("type", .str "event_callback"),
     ("event", .obj [("type", .str "app_mention"), ("text", .str "<@U123> hi"),
       ("bot_id", .str "B9"), ("channel", .str "C1")])]
    [("type", .str "app_mention"), ("text", .str "<@U123> hi"),
     ("bot_id", .str "B9"), ("channel", .str "C1")]
    rfl rfl rfl rfl rfl

/-- C10: a request whose body is the exact text `null` (JSON null) with no
retry headers is not rejected and does not raise: every payload branch
guards on truthiness, so it falls through to the final branch, 200 with the
ignored-request-type body and no outbound calls. -/
theorem null_body_ignored (settings : Settings)
    (backend : BackendCall → BackendResult) (slack : SlackPost → SlackResult) :
    slackInvoke ⟨"null", none, none⟩ settings backend slack =
      (.ok (respond 200 "ok, ignored request type"), emptyTrace) := by
  have hparse : pyJsonLoads "null" = some .null := rfl
  have hbody : ¬ ("null" : String) = "" := by decide
  simp only [slackInvoke, if_neg hbody]
  rw [show pyJsonLoads "null" = some Json.null from rfl]
  simp only [afterParse, jTruthy]
  by_cases ha : settings.allow_retry <;>
    simp [afterVerification, ha, afterRetry, jTruthy]

/-! Stage lemmas: each handler stage returns a response (no exception) on
well-shaped input, returns only statuses 200/400, and makes at most one
backend and at most one messaging call. -/

theorem traceBound_empty : TraceBound emptyTrace := by
  constructor <;> simp [emptyTrace]

theorem processStep_ok (settings : Settings) (backend : BackendCall → BackendResult)
    (slack : SlackPost → SlackResult) (channel message : Json) :
    ∃ resp, (processStep settings backend slack channel message).1 = .ok resp ∧
      resp.status = 200 := by
  unfold processStep
  repeat' split
  all_goals exact ⟨_, rfl, rfl⟩

theorem processStep_trace (settings : Settings) (backend : BackendCall → BackendResult)
    (slack : SlackPost → SlackResult) (channel message : Json) :
    TraceBound (processStep settings backend slack channel message).2 := by
  unfold processStep
  repeat' split
  all_goals constructor <;> simp [emptyTrace]

theorem eventStep_ok (settings : Settings) (backend : BackendCall → BackendResult)
    (slack : SlackPost → SlackResult) (evs : List (String × Json))
    (htext : appMentionTextOk evs = true) :
    ∃ resp, (eventStep settings backend slack (.obj evs)).1 = .ok resp ∧
      resp.status = 200 := by
  simp only [eventStep]
  by_cases hbot : isNotNone (oget evs "bot_id") = true
  · simp [hbot, respond]
  · simp only [Bool.not_eq_true] at hbot
    rw [hbot]
    simp only [Bool.false_eq_true, if_false]
    by_cases hA : isStrVal (oget evs "type") "app_mention" = true
    · rw [hA]
      simp only [if_true]
      simp only [appMentionTextOk, hA, if_true] at htext
      cases htx : oget evs "text" with
      | none =>
        simp only [Option.getD]
        by_cases hm : pyStripStr (subMentionsStr "") = ""
        · simp [hm, respond]
        · simp only [hm, if_false]
          exact processStep_ok _ _ _ _ _
      | some t =>
        cases t with
        | str raw =>
          simp only [Option.getD]
          by_cases hm : pyStripStr (subMentionsStr raw) = ""
          · simp [hm, respond]
          · simp only [hm, if_false]
            exact processStep_ok _ _ _ _ _
        | null => rw [htx] at htext; exact Bool.noConfusion htext
        | bool b => rw [htx] at htext; exact Bool.noConfusion htext
        | num l z => rw [htx] at htext; exact Bool.noConfusion htext
        | arr l => rw [htx] at htext; exact Bool.noConfusion htext
        | obj l => rw [htx] at htext; exact Bool.noConfusion htext
    · simp only [Bool.not_eq_true] at hA
      rw [hA]
      simp only [Bool.false_eq_true, if_false]
      by_cases hD : (isStrVal (oget evs "type") "message" &&
          isStrVal (oget evs "channel_type") "im") = true
      · rw [hD]
        simp only [if_true]
        by_cases hm : jTruthy ((oget evs "text").getD (.str "")) = true
        · simp only [hm, if_true]
          exact processStep_ok _ _ _ _ _
        · simp only [Bool.not_eq_true] at hm
          simp [hm, respond]
      · simp only [Bool.not_eq_true] at hD
        rw [hD]
        simp [respond]

theorem eventStep_trace (settings : Settings) (backend : BackendCall → BackendResult)
    (slack : SlackPost → SlackResult) (ev : Json) :
    TraceBound (eventStep settings backend slack ev).2 := by
  cases ev with
  | obj evs =>
    simp only [eventStep]
    by_cases hbot : isNotNone (oget evs "bot_id") = true
    · simp [hbot]; exact traceBound_empty
    · simp only [Bool.not_eq_true] at hbot
      rw [hbot]
      simp only [Bool.false_eq_true, if_false]
      by_cases hA : isStrVal (oget evs "type") "app_mention" = true
      · rw [hA]
        simp only [if_true]
        cases htx : (oget evs "text").getD (.str "") with
        | str raw =>
          by_cases hm : pyStripStr (subMentionsStr raw) = ""
          · simp [hm]; exact traceBound_empty
          · simp only [hm, if_false]
            exact processStep_trace _ _ _ _ _
        | null => exact traceBound_empty
        | bool b => exact traceBound_empty
        | num l z => exact traceBound_empty
        | arr l => exact traceBound_empty
        | obj l => exact traceBound_empty
      · simp only [Bool.not_eq_true] at hA
        rw [hA]
        simp only [Bool.false_eq_true, if_false]
        by_cases hD : (isStrVal (oget evs "type") "message" &&
            isStrVal (oget evs "channel_type") "im") = true
        · rw [hD]
          simp only [if_true]
          by_cases hm : jTruthy ((oget evs "text").getD (.str "")) = true
          · simp only [hm, if_true]
            exact processStep_trace _ _ _ _ _
          · simp only [Bool.not_eq_true] at hm
            simp [hm]; exact traceBound_empty
        · simp only [Bool.not_eq_true] at hD
          rw [hD]
          simp only [Bool.false_eq_true, if_false]
          exact traceBound_empty
  | null => exact traceBound_empty
  | bool b => exact traceBound_empty
  | num l z => exact traceBound_empty
  | str s => exact traceBound_empty
  | arr l => exact traceBound_empty

theorem afterRetry_ok (settings : Settings) (backend : BackendCall → BackendResult)
    (slack : SlackPost → SlackResult) (data : Option Json)
    (hshape : payloadShapeOk data = true) :
    ∃ resp, (afterRetry settings backend slack data).1 = .ok resp ∧
      resp.status = 200 := by
  cases data with
  | none => simp [afterRetry, respond]
  | some d =>
    simp only [afterRetry]
    by_cases ht : jTruthy d = true
    · rw [ht]
      simp only [if_true]
      simp only [payloadShapeOk, ht, if_true] at hshape
      cases d with
      | obj es =>
        have hfield : eventFieldOk es = true := hshape
        simp only [pyGet]
        by_cases hec : isStrVal (oget es "type") "event_callback" = true
        · rw [hec]
          simp only [if_true]
          simp only [eventFieldOk, hec, if_true] at hfield
          cases hev : oget es "event" with
          | none => exact ⟨_, rfl, rfl⟩
          | some ev =>
            rw [hev] at hfield
            simp only [eventValueOk] at hfield
            by_cases htev : jTruthy ev = true
            · simp only [htev, if_true] at hfield
              simp only [htev, if_true]
              cases ev with
              | obj evs => exact eventStep_ok _ _ _ _ hfield
              | null => exact Bool.noConfusion hfield
              | bool b => exact Bool.noConfusion hfield
              | num l z => exact Bool.noConfusion hfield
              | str s => exact Bool.noConfusion hfield
              | arr l => exact Bool.noConfusion hfield
            · simp only [Bool.not_eq_true] at htev
              simp [htev, respond]
        · simp only [Bool.not_eq_true] at hec
          rw [hec]
          simp [respond]
      | null => simp [jTruthy] at ht
      | bool b => exact Bool.noConfusion hshape
      | num l z => exact Bool.noConfusion hshape
      | str s => exact Bool.noConfusion hshape
      | arr l => exact Bool.noConfusion hshape
    · simp only [Bool.not_eq_true] at ht
      rw [ht]
      simp [respond]

theorem afterRetry_trace (settings : Settings) (backend : BackendCall → BackendResult)
    (slack : SlackPost → SlackResult) (data : Option Json) :
    TraceBound (afterRetry settings backend slack data).2 := by
  cases data with
  | none => exact traceBound_empty
  | some d =>
    simp only [afterRetry]
    by_cases ht : jTruthy d = true
    · rw [ht]
      simp only [if_true]
      cases hG : pyGet d "type" with
      | error e => exact traceBound_empty
      | ok ty =>
        dsimp only
        by_cases hec : isStrVal ty "event_callback" = true
        · rw [hec]
          simp only [if_true]
          cases hGe : pyGet d "event" with
          | error e => exact traceBound_empty
          | ok evOpt =>
            dsimp only
            cases evOpt with
            | none => exact traceBound_empty
            | some ev =>
              by_cases htev : jTruthy ev = true
              · simp only [htev, if_true]
                exact eventStep_trace _ _ _ _
              · simp only [Bool.not_eq_true] at htev
                simp only [htev, Bool.false_eq_true, if_false]
                exact traceBound_empty
        · simp only [Bool.not_eq_true] at hec
          rw [hec]
          simp only [Bool.false_eq_true, if_false]
          exact traceBound_empty
    · simp only [Bool.not_eq_true] at ht
      rw [ht]
      simp only [Bool.false_eq_true, if_false]
      exact traceBound_empty

theorem afterVerification_ok (r : SlackRequest) (settings : Settings)
    (backend : BackendCall → BackendResult) (slack : SlackPost → SlackResult)
    (data : Option Json)
    (hnum : retryNumOk r.retryNum = true)
    (hshape : payloadShapeOk data = true) :
    ∃ resp, (afterVerification r settings backend slack data).1 = .ok resp ∧
      resp.status = 200 := by
  simp only [afterVerification]
  by_cases ha : settings.allow_retry = true
  · rw [if_pos ha]
    exact afterRetry_ok _ _ _ _ hshape
  · rw [if_neg ha]
    by_cases hr : r.retryReason = some "http_timeout"
    · rw [if_pos hr]
      exact ⟨_, rfl, rfl⟩
    · rw [if_neg hr]
      cases hn : r.retryNum with
      | none => exact afterRetry_ok _ _ _ _ hshape
      | some s =>
        dsimp only
        rw [hn] at hnum
        simp only [retryNumOk] at hnum
        cases hpi : pyInt s with
        | none => rw [hpi] at hnum; simp at hnum
        | some n =>
          dsimp only
          by_cases hpos : 0 < n
          · rw [if_pos hpos]
            exact ⟨_, rfl, rfl⟩
          · rw [if_neg hpos]
            exact afterRetry_ok _ _ _ _ hshape

theorem afterVerification_trace (r : SlackRequest) (settings : Settings)
    (backend : BackendCall → BackendResult) (slack : SlackPost → SlackResult)
    (data : Option Json) :
    TraceBound (afterVerification r settings backend slack data).2 := by
  simp only [afterVerification]
  by_cases ha : settings.allow_retry = true
  · rw [if_pos ha]
    exact afterRetry_trace _ _ _ _
  · rw [if_neg ha]
    by_cases hr : r.retryReason = some "http_timeout"
    · rw [if_pos hr]
      exact traceBound_empty
    · rw [if_neg hr]
      cases hn : r.retryNum with
      | none => exact afterRetry_trace _ _ _ _
      | some s =>
        dsimp only
        cases hpi : pyInt s with
        | none => exact traceBound_empty
        | some n =>
          dsimp only
          by_cases hpos : 0 < n
          · rw [if_pos hpos]
            exact traceBound_empty
          · rw [if_neg hpos]
            exact afterRetry_trace _ _ _ _

theorem afterParse_ok (r : SlackRequest) (settings : Settings)
    (backend : BackendCall → BackendResult) (slack : SlackPost → SlackResult)
    (data : Option Json)
    (hnum : retryNumOk r.retryNum = true)
    (hshape : payloadShapeOk data = true) :
    ∃ resp, (afterParse r settings backend slack data).1 = .ok resp ∧
      (resp.status = 200 ∨ resp.status = 400) := by
  have weaken : (∃ resp, (afterVerification r settings backend slack data).1 = .ok resp ∧
      resp.status = 200) →
      ∃ resp, (afterVerification r settings backend slack data).1 = .ok resp ∧
        (resp.status = 200 ∨ resp.status = 400) := by
    rintro ⟨resp, h1, h2⟩
    exact ⟨resp, h1, Or.inl h2⟩
  cases data with
  | none =>
    simp only [afterParse]
    exact weaken (afterVerification_ok r settings backend slack none hnum hshape)
  | some d =>
    have hshape0 := hshape
    simp only [afterParse]
    by_cases ht : jTruthy d = true
    · rw [ht]
      simp only [if_true]
      simp only [payloadShapeOk, ht, if_true] at hshape
      cases d with
      | obj es =>
        simp only [pyGet]
        by_cases huv : isStrVal (oget es "type") "url_verification" = true
        · rw [huv]
          simp only [if_true]
          by_cases hch : pyTruthyOpt (oget es "challenge") = true
          · simp [hch, jsonResponse]
          · simp only [Bool.not_eq_true] at hch
            simp [hch, respond]
        · simp only [Bool.not_eq_true] at huv
          rw [huv]
          simp only [Bool.false_eq_true, if_false]
          exact weaken (afterVerification_ok r settings backend slack _ hnum hshape0)
      | null => simp [jTruthy] at ht
      | bool b => exact Bool.noConfusion hshape
      | num l z => exact Bool.noConfusion hshape
      | str s => exact Bool.noConfusion hshape
      | arr l => exact Bool.noConfusion hshape
    · simp only [Bool.not_eq_true] at ht
      rw [ht]
      simp only [Bool.false_eq_true, if_false]
      exact weaken (afterVerification_ok r settings backend slack _ hnum hshape0)

theorem afterParse_trace (r : SlackRequest) (settings : Settings)
    (backend : BackendCall → BackendResult) (slack : SlackPost → SlackResult)
    (data : Option Json) :
    TraceBound (afterParse r settings backend slack data).2 := by
  cases data with
  | none => exact afterVerification_trace _ _ _ _ _
  | some d =>
    simp only [afterParse]
    by_cases ht : jTruthy d = true
    · rw [ht]
      simp only [if_true]
      cases hG : pyGet d "type" with
      | error e => exact traceBound_empty
      | ok ty =>
        dsimp only
        by_cases huv : isStrVal ty "url_verification" = true
        · rw [huv]
          simp only [if_true]
          cases hGc : pyGet d "challenge" with
          | error e => exact traceBound_empty
          | ok ch =>
            dsimp only
            by_cases hch : pyTruthyOpt ch = true
            · simp only [hch, if_true]
              exact traceBound_empty
            · simp only [Bool.not_eq_true] at hch
              simp only [hch, Bool.false_eq_true, if_false]
              exact traceBound_empty
        · simp only [Bool.not_eq_true] at huv
          rw [huv]
          simp only [Bool.false_eq_true, if_false]
          exact afterVerification_trace _ _ _ _ _
    · simp only [Bool.not_eq_true] at ht
      rw [ht]
      simp only [Bool.false_eq_true, if_false]
      exact afterVerification_trace _ _ _ _ _

/-! Status lemmas: every response the post-verification stages produce is a
200, and the only 400s are invalid JSON and a missing challenge. -/

theorem status_of_ok_respond {b : String} {n : Nat} {resp : HttpResponse}
    (h : (Except.ok (respond n b) : Except PyExn HttpResponse) = .ok resp) :
    resp.status = n := by
  injection h with h
  rw [← h]
  rfl

theorem status_of_ok_jsonResponse {b : String} {resp : HttpResponse}
    (h : (Except.ok (jsonResponse b) : Except PyExn HttpResponse) = .ok resp) :
    resp.status = 200 := by
  injection h with h
  rw [← h]
  rfl

theorem processStep_status {settings : Settings} {backend : BackendCall → BackendResult}
    {slack : SlackPost → SlackResult} {channel message : Json} {resp : HttpResponse}
    (h : (processStep settings backend slack channel message).1 = .ok resp) :
    resp.status = 200 := by
  obtain ⟨resp2, h2, hs⟩ := processStep_ok settings backend slack channel message
  rw [h] at h2
  injection h2 with h2
  rw [h2]
  exact hs

theorem eventStep_status {settings : Settings} {backend : BackendCall → BackendResult}
    {slack : SlackPost → SlackResult} {ev : Json} {resp : HttpResponse}
    (h : (eventStep settings backend slack ev).1 = .ok resp) :
    resp.status = 200 := by
  cases ev with
  | obj es =>
    simp only [eventStep] at h
    by_cases hbot : isNotNone (oget es "bot_id") = true
    · rw [if_pos hbot] at h
      exact status_of_ok_respond h
    · rw [if_neg hbot] at h
      by_cases hA : isStrVal (oget es "type") "app_mention" = true
      · rw [if_pos hA] at h
        cases htx : (oget es "text").getD (.str "") with
        | str raw =>
          rw [htx] at h
          dsimp only at h
          by_cases hm : pyStripStr (subMentionsStr raw) = ""
          · rw [if_pos hm] at h
            exact status_of_ok_respond h
          · rw [if_neg hm] at h
            exact processStep_status h
        | null => rw [htx] at h; exact Except.noConfusion h
        | bool b => rw [htx] at h; exact Except.noConfusion h
        | num l z => rw [htx] at h; exact Except.noConfusion h
        | arr l => rw [htx] at h; exact Except.noConfusion h
        | obj l => rw [htx] at h; exact Except.noConfusion h
      · rw [if_neg hA] at h
        by_cases hD : (isStrVal (oget es "type") "message" &&
            isStrVal (oget es "channel_type") "im") = true
        · rw [if_pos hD] at h
          by_cases hm : jTruthy ((oget es "text").getD (.str "")) = true
          · rw [if_pos hm] at h
            exact processStep_status h
          · rw [if_neg hm] at h
            exact status_of_ok_respond h
        · rw [if_neg hD] at h
          exact status_of_ok_respond h
  | null => exact Except.noConfusion h
  | bool b => exact Except.noConfusion h
  | num l z => exact Except.noConfusion h
  | str s => exact Except.noConfusion h
  | arr l => exact Except.noConfusion h

theorem afterRetry_status {settings : Settings} {backend : BackendCall → BackendResult}
    {slack : SlackPost → SlackResult} {data : Option Json} {resp : HttpResponse}
    (h : (afterRetry settings backend slack data).1 = .ok resp) :
    resp.status = 200 := by
  cases data with
  | none => exact status_of_ok_respond h
  | some d =>
    simp only [afterRetry] at h
    by_cases ht : jTruthy d = true
    · rw [if_pos ht] at h
      cases hG : pyGet d "type" with
      | error e => rw [hG] at h; exact Except.noConfusion h
      | ok ty =>
        rw [hG] at h
        dsimp only at h
        by_cases hec : isStrVal ty "event_callback" = true
        · rw [if_pos hec] at h
          cases hGe : pyGet d "event" with
          | error e => rw [hGe] at h; exact Except.noConfusion h
          | ok evOpt =>
            rw [hGe] at h
            dsimp only at h
            cases evOpt with
            | none => exact status_of_ok_respond h
            | some ev =>
              dsimp only at h
              by_cases htev : jTruthy ev = true
              · rw [if_pos htev] at h
                exact eventStep_status h
              · rw [if_neg htev] at h
                exact status_of_ok_respond h
        · rw [if_neg hec] at h
          exact status_of_ok_respond h
    · rw [if_neg ht] at h
      exact status_of_ok_respond h

theorem afterVerification_status {r : SlackRequest} {settings : Settings}
    {backend : BackendCall → BackendResult} {slack : SlackPost → SlackResult}
    {data : Option Json} {resp : HttpResponse}
    (h : (afterVerification r settings backend slack data).1 = .ok resp) :
    resp.status = 200 := by
  simp only [afterVerification] at h
  by_cases ha : settings.allow_retry = true
  · rw [if_pos ha] at h
    exact afterRetry_status h
  · rw [if_neg ha] at h
    by_cases hr : r.retryReason = some "http_timeout"
    · rw [if_pos hr] at h
      exact status_of_ok_respond h
    · rw [if_neg hr] at h
      cases hn : r.retryNum with
      | none => rw [hn] at h; exact afterRetry_status h
      | some s =>
        rw [hn] at h
        dsimp only at h
        cases hpi : pyInt s with
        | none => rw [hpi] at h; exact Except.noConfusion h
        | some n =>
          rw [hpi] at h
          dsimp only at h
          by_cases hpos : 0 < n
          · rw [if_pos hpos] at h
            exact status_of_ok_respond h
          · rw [if_neg hpos] at h
            exact afterRetry_status h

theorem afterParse_status {r : SlackRequest} {settings : Settings}
    {backend : BackendCall → BackendResult} {slack : SlackPost → SlackResult}
    {data : Option Json} {resp : HttpResponse}
    (h : (afterParse r settings backend slack data).1 = .ok resp) :
    (resp.status = 200 ∨ resp.status = 400) ∧
    (resp.status = 400 ↔
      (isUrlVerificationObj data = true ∧ challengeMissing data = true)) := by
  have delegated : ∀ {d : Option Json},
      (afterVerification r settings backend slack d).1 = .ok resp →
      isUrlVerificationObj d = false →
      (resp.status = 200 ∨ resp.status = 400) ∧
      (resp.status = 400 ↔
        (isUrlVerificationObj d = true ∧ challengeMissing d = true)) := by
    intro d hd hf
    have h200 := afterVerification_status hd
    refine ⟨Or.inl h200, ?_, ?_⟩
    · intro h400
      rw [h200] at h400
      exact absurd h400 (by decide)
    · rintro ⟨hu, _⟩
      rw [hf] at hu
      exact Bool.noConfusion hu
  cases data with
  | none => exact delegated h rfl
  | some d =>
    simp only [afterParse] at h
    by_cases ht : jTruthy d = true
    · rw [if_pos ht] at h
      cases d with
      | obj es =>
        simp only [pyGet] at h
        by_cases huv : isStrVal (oget es "type") "url_verification" = true
        · rw [if_pos huv] at h
          by_cases hch : pyTruthyOpt (oget es "challenge") = true
          · rw [if_pos hch] at h
            have h200 := status_of_ok_jsonResponse h
            refine ⟨Or.inl h200, ?_, ?_⟩
            · intro h400
              rw [h200] at h400
              exact absurd h400 (by decide)
            · rintro ⟨_, hm⟩
              simp only [challengeMissing, hch] at hm
              exact Bool.noConfusion hm
          · rw [if_neg hch] at h
            have h400 := status_of_ok_respond h
            simp only [Bool.not_eq_true] at hch
            refine ⟨Or.inr h400, ?_, ?_⟩
            · intro _
              refine ⟨?_, ?_⟩
              · simp [isUrlVerificationObj, ht, huv]
              · simp [challengeMissing, hch]
            · intro _
              exact h400
        · rw [if_neg huv] at h
          refine delegated h ?_
          simp only [Bool.not_eq_true] at huv
          simp [isUrlVerificationObj, huv]
      | null => simp [jTruthy] at ht
      | bool b => exact Except.noConfusion h
      | num l z => exact Except.noConfusion h
      | str s => exact Except.noConfusion h
      | arr l => exact Except.noConfusion h
    · rw [if_neg ht] at h
      refine delegated h ?_
      simp only [Bool.not_eq_true] at ht
      cases d with
      | obj es => simp [isUrlVerificationObj, ht]
      | null => rfl
      | bool b => rfl
      | num l z => rfl
      | str s => rfl
      | arr l => rfl

/-- C2 counterexample: with a non-integer `X-Slack-Retry-Num` header the
handler does not catch the `ValueError` of `int(retry_num)` — the
exception escapes the boundary instead of one response being returned. -/
theorem retry_header_valueerror_escapes :
    (slackInvoke ⟨"\x7b\"type\": \"x\"\x7d", some "abc", none⟩
      settingsFull backendOk slackOk).1 = .error .valueError := rfl

/-- C2 (amended): the handler returns exactly one response and raises no
exception provided the `X-Slack-Retry-Num` header, when present, is a
Python integer literal, and the parsed body has the expected shapes (a
truthy payload is an object, a truthy event is an object, an app_mention
text is a string); outbound-call failures are all caught.  Outside these
shapes an exception escapes (ValueError, AttributeError or TypeError). -/
theorem handler_returns_one_response (r : SlackRequest) (settings : Settings)
    (backend : BackendCall → BackendResult) (slack : SlackPost → SlackResult)
    (hnum : retryNumOk r.retryNum = true)
    (hshape : payloadShapeOk (parsedData r) = true) :
    ∃ resp, (slackInvoke r settings backend slack).1 = .ok resp := by
  by_cases hb : r.body = ""
  · obtain ⟨resp, h1, _⟩ :=
      afterParse_ok r settings backend slack none hnum rfl
    refine ⟨resp, ?_⟩
    simp only [slackInvoke, if_pos hb]
    exact h1
  · cases hp : pyJsonLoads r.body with
    | none =>
      refine ⟨respond 400 "Bad Request: Invalid JSON", ?_⟩
      simp only [slackInvoke, if_neg hb, hp]
    | some j =>
      have hpd : parsedData r = some j := by simp [parsedData, hb, hp]
      rw [hpd] at hshape
      obtain ⟨resp, h1, _⟩ :=
        afterParse_ok r settings backend slack (some j) hnum hshape
      refine ⟨resp, ?_⟩
      simp only [slackInvoke, if_neg hb, hp]
      exact h1

/-- Witness for the amended C2 at a concrete well-shaped request. -/
theorem handler_returns_one_response_witness :
    ∃ resp, (slackInvoke ⟨"\x7b\"type\": \"x\"\x7d", some "0", none⟩
      settingsFull backendOk slackOk).1 = .ok resp :=
  handler_returns_one_response ⟨"\x7b\"type\": \"x\"\x7d", some "0", none⟩
    settingsFull backendOk slackOk rfl rfl

/-- C3 counterexample: the main handler answers an empty request body with
200 and the ignored-request-type body, not 400 (only the verify-only draft
rejects an empty body). -/
theorem empty_body_yields_200 :
    (slackInvoke ⟨"", none, none⟩ settingsFull backendOk slackOk).1 =
      .ok (respond 200 "ok, ignored request type") := rfl

/-- C3 (amended): a response of the main handler is 200 or 400, and it is
400 exactly when the body is non-empty and unparseable, or the payload is a
url_verification object whose challenge is missing or falsy; an EMPTY body
falls through to 200 with the ignored-request-type body. -/
theorem status_taxonomy (r : SlackRequest) (settings : Settings)
    (backend : BackendCall → BackendResult) (slack : SlackPost → SlackResult)
    (resp : HttpResponse)
    (h : (slackInvoke r settings backend slack).1 = .ok resp) :
    (resp.status = 200 ∨ resp.status = 400) ∧
    (resp.status = 400 ↔
      ((¬ r.body = "") ∧ pyJsonLoads r.body = none) ∨
      (isUrlVerificationObj (parsedData r) = true ∧
       challengeMissing (parsedData r) = true)) := by
  by_cases hb : r.body = ""
  · simp only [slackInvoke, if_pos hb] at h
    obtain ⟨hor, hiff⟩ := afterParse_status h
    refine ⟨hor, ?_⟩
    rw [hiff]
    simp [parsedData, hb]
  · cases hp : pyJsonLoads r.body with
    | none =>
      simp only [slackInvoke, if_neg hb, hp] at h
      injection h with h
      rw [← h]
      refine ⟨Or.inr rfl, ?_, ?_⟩
      · intro _
        exact Or.inl ⟨hb, rfl⟩
      · intro _
        rfl
    | some j =>
      simp only [slackInvoke, if_neg hb, hp] at h
      obtain ⟨hor, hiff⟩ := afterParse_status h
      have hpd : parsedData r = some j := by simp [parsedData, hb, hp]
      refine ⟨hor, ?_⟩
      rw [hiff, hpd]
      simp [hp]

/-- Witness for the amended C3 at a concrete unparseable body. -/
theorem status_taxonomy_witness :
    ((respond 400 "Bad Request: Invalid JSON").status = 200 ∨
     (respond 400 "Bad Request: Invalid JSON").status = 400) ∧
    ((respond 400 "Bad Request: Invalid JSON").status = 400 ↔
      ((¬ ("x" : String) = "") ∧ pyJsonLoads "x" = none) ∨
      (isUrlVerificationObj (parsedData ⟨"x", none, none⟩) = true ∧
       challengeMissing (parsedData ⟨"x", none, none⟩) = true)) :=
  status_taxonomy ⟨"x", none, none⟩ settingsFull backendOk slackOk
    (respond 400 "Bad Request: Invalid JSON") rfl

/-- C9: over any one run of the handler, at most one backend invocation
and at most one messaging-API post are made, whatever the request, the
settings and the outcome of the outbound calls. -/
theorem at_most_one_backend_and_post (r : SlackRequest) (settings : Settings)
    (backend : BackendCall → BackendResult) (slack : SlackPost → SlackResult) :
    (slackInvoke r settings backend slack).2.backendCalls.length ≤ 1 ∧
    (slackInvoke r settings backend slack).2.slackPosts.length ≤ 1 := by
  by_cases hb : r.body = ""
  · simp only [slackInvoke, if_pos hb]
    exact afterParse_trace r settings backend slack none
  · cases hp : pyJsonLoads r.body with
    | none =>
      simp only [slackInvoke, if_neg hb, hp]
      exact traceBound_empty
    | some j =>
      simp only [slackInvoke, if_neg hb, hp]
      exact afterParse_trace r settings backend slack (some j)

/-! Routing lemmas shared by the message-extraction and backend-failure
claims: a processable `event_callback` request reaches `processStep` with
the extracted channel and message. -/

theorem afterVerification_bypassed (r : SlackRequest) (settings : Settings)
    (backend : BackendCall → BackendResult) (slack : SlackPost → SlackResult)
    (data : Option Json) (hbypass : retryBypassed r settings) :
    afterVerification r settings backend slack data =
      afterRetry settings backend slack data := by
  simp only [afterVerification]
  by_cases ha : settings.allow_retry = true
  · rw [if_pos ha]
  · rw [if_neg ha]
    rcases hbypass with h | ⟨hr, hopt⟩
    · exact absurd h ha
    · rw [if_neg hr]
      rcases hopt with hn | ⟨s, n, hs, hpi, hn⟩
      · rw [hn]
      · rw [hs]
        dsimp only
        rw [hpi]
        dsimp only
        rw [if_neg hn]

theorem eventStep_processable (settings : Settings)
    (backend : BackendCall → BackendResult) (slack : SlackPost → SlackResult)
    (evs : List (String × Json)) (message : Json)
    (hbot : oget evs "bot_id" = none)
    (hproc : processableEvent evs message) :
    eventStep settings backend slack (.obj evs) =
      processStep settings backend slack ((oget evs "channel").getD (.str ""))
        message := by
  rcases hproc with ⟨T, hevty, htext, hne, hm⟩ | ⟨hevty, hct, htext, htr⟩
  · subst hm
    simp only [eventStep, hbot, isNotNone, Bool.false_eq_true, if_false]
    rw [if_pos (show isStrVal (oget evs "type") "app_mention" = true by
      rw [hevty]; decide)]
    rw [htext]
    simp only [Option.getD_some]
    rw [if_neg hne]
  · simp only [eventStep, hbot, isNotNone, Bool.false_eq_true, if_false]
    rw [if_neg (show ¬ isStrVal (oget evs "type") "app_mention" = true by
      rw [hevty]; decide)]
    rw [if_pos (show (isStrVal (oget evs "type") "message" &&
      isStrVal (oget evs "channel_type") "im") = true by rw [hevty, hct]; decide)]
    rw [htext]
    simp only [Option.getD_some]
    rw [if_pos htr]

theorem slackInvoke_to_processStep (r : SlackRequest) (settings : Settings)
    (backend : BackendCall → BackendResult) (slack : SlackPost → SlackResult)
    (es evs : List (String × Json)) (message : Json)
    (hparse : pyJsonLoads r.body = some (.obj es))
    (hty : oget es "type" = some (.str "event_callback"))
    (hev : oget es "event" = some (.obj evs))
    (hbot : oget evs "bot_id" = none)
    (hproc : processableEvent evs message)
    (hbypass : retryBypassed r settings) :
    slackInvoke r settings backend slack =
      processStep settings backend slack ((oget evs "channel").getD (.str ""))
        message := by
  have hbody := body_ne_empty_of_parse hparse
  have htres := jTruthy_obj_of_oget hty
  have htrev : jTruthy (.obj evs) = true := by
    rcases hproc with ⟨T, hevty, _⟩ | ⟨hevty, _⟩ <;> exact jTruthy_obj_of_oget hevty
  simp only [slackInvoke, if_neg hbody, hparse]
  simp only [afterParse, htres, if_true, pyGet, hty]
  rw [if_neg (show ¬ isStrVal (some (Json.str "event_callback"))
    "url_verification" = true by decide)]
  rw [afterVerification_bypassed r settings backend slack _ hbypass]
  simp only [afterRetry, htres, if_true, pyGet, hty]
  rw [if_pos (show isStrVal (some (Json.str "event_callback"))
    "event_callback" = true by decide)]
  rw [hev]
  dsimp only
  rw [if_pos htrev]
  exact eventStep_processable settings backend slack evs message hbot hproc

theorem processStep_backend_called (settings : Settings)
    (backend : BackendCall → BackendResult) (slack : SlackPost → SlackResult)
    (channel message : Json) (tok aid : String)
    (htok : settings.bot_token = some tok) (htokne : ¬ tok = "")
    (happ : appIdSetting settings = some aid) :
    (processStep settings backend slack channel message).2.backendCalls =
      [⟨aid, message, [], "blocking"⟩] := by
  simp only [processStep, htok, if_neg htokne, happ]
  cases hB : backend ⟨aid, message, [], "blocking"⟩ with
  | exn => rfl
  | ok answerOpt =>
    dsimp only
    cases slack ⟨channel, answerOpt.getD noAnswerText⟩ <;> rfl

/-- C6 counterexample: the source's `re.sub` removes mention tokens
EVERYWHERE in the text, not only leading ones — on text `"a <@U1> b"` the
backend query is `"a b"`, while the spec's leading-only stripping keeps the
text unchanged. -/
theorem mention_strip_not_leading_only :
    (slackInvoke ⟨mentionMidBody, none, none⟩ settingsFull backendOk slackOk).2.backendCalls =
      [⟨"app1", .str "a b", [], "blocking"⟩] ∧
    specLeadingMentionStrip "a <@U1> b" = "a <@U1> b" ∧
    ¬ (("a b" : String) = specLeadingMentionStrip "a <@U1> b") :=
  ⟨rfl, rfl, by decide⟩

/-- C6 (amended): for an `app_mention` event the extracted message is
`event.text` with every mention token `<@` + word-characters + `>`
(optionally followed by whitespace) removed WHEREVER it occurs in the text
(not only leading tokens), then whitespace-trimmed; when this message is
non-empty the backend is invoked with exactly that message as the query —
in particular `"<@U123> hello there"` yields query `"hello there"`. -/
theorem app_mention_query (r : SlackRequest) (settings : Settings)
    (backend : BackendCall → BackendResult) (slack : SlackPost → SlackResult)
    (es evs : List (String × Json)) (T tok aid : String)
    (hparse : pyJsonLoads r.body = some (.obj es))
    (hty : oget es "type" = some (.str "event_callback"))
    (hev : oget es "event" = some (.obj evs))
    (hbot : oget evs "bot_id" = none)
    (hevty : oget evs "type" = some (.str "app_mention"))
    (htext : oget evs "text" = some (.str T))
    (hne : ¬ pyStripStr (subMentionsStr T) = "")
    (hbypass : retryBypassed r settings)
    (htok : settings.bot_token = some tok) (htokne : ¬ tok = "")
    (happ : appIdSetting settings = some aid) :
    (slackInvoke r settings backend slack).2.backendCalls =
      [⟨aid, .str (pyStripStr (subMentionsStr T)), [], "blocking"⟩] := by
  rw [slackInvoke_to_processStep r settings backend slack es evs
    (.str (pyStripStr (subMentionsStr T))) hparse hty hev hbot
    (Or.inl ⟨T, hevty, htext, hne, rfl⟩) hbypass]
  exact processStep_backend_called settings backend slack _ _ tok aid htok htokne happ

/-- Witness for the amended C6 at the spec's example text. -/
theorem app_mention_query_witness :
    (slackInvoke ⟨mentionBody, none, none⟩ settingsFull backendOk slackOk).2.backendCalls =
      [⟨"app1", .str (pyStripStr (subMentionsStr "<@U123> hello there")), [], "blocking"⟩] ∧
    pyStripStr (subMentionsStr "<@U123> hello there") = "hello there" :=
  ⟨app_mention_query ⟨mentionBody, none, none⟩ settingsFull backendOk slackOk
      [("type", .str "event_callback"),
       ("event", .obj [("type", .str "app_mention"),
         ("text", .str "<@U123> hello there"), ("channel", .str "C1")])]
      [("type", .str "app_mention"), ("text", .str "<@U123> hello there"),
       ("channel", .str "C1")]
      "<@U123> hello there" "tok" "app1"
      rfl rfl rfl rfl rfl rfl (by decide)
      (Or.inr ⟨by decide, Or.inl rfl⟩) rfl (by decide) rfl,
   rfl⟩

/-- C8: when the backend invocation raises, the handler answers 200 with
the internal-error body, makes exactly one best-effort error-notification
post to the originating channel, and never propagates the exception — for
EVERY Slack oracle, so the notification's own failure is swallowed. -/
theorem backend_exception_handled (r : SlackRequest) (settings : Settings)
    (backend : BackendCall → BackendResult) (slack : SlackPost → SlackResult)
    (es evs : List (String × Json)) (message : Json) (tok aid : String)
    (hparse : pyJsonLoads r.body = some (.obj es))
    (hty : oget es "type" = some (.str "event_callback"))
    (hev : oget es "event" = some (.obj evs))
    (hbot : oget evs "bot_id" = none)
    (hproc : processableEvent evs message)
    (hbypass : retryBypassed r settings)
    (htok : settings.bot_token = some tok) (htokne : ¬ tok = "")
    (happ : appIdSetting settings = some aid)
    (hexn : ∀ c, backend c = .exn) :
    slackInvoke r settings backend slack =
      (.ok (respond 200 "ok, internal server error"),
       ⟨[⟨aid, message, [], "blocking"⟩],
        [⟨(oget evs "channel").getD (.str ""), internalErrorText⟩]⟩) := by
  rw [slackInvoke_to_processStep r settings backend slack es evs message
    hparse hty hev hbot hproc hbypass]
  simp only [processStep, htok, if_neg htokne, happ, hexn]

/-- Witness for C8: a direct message whose backend invocation raises, with
a Slack oracle that itself fails — still one 200 and one notification. -/
theorem backend_exception_handled_witness :
    slackInvoke ⟨dmBody, none, none⟩ settingsFull backendRaise slackFail =
      (.ok (respond 200 "ok, internal server error"),
       ⟨[⟨"app1", .str "hi", [], "blocking"⟩],
        [⟨.str "D1", internalErrorText⟩]⟩) := by
  have h := backend_exception_handled ⟨dmBody, none, none⟩ settingsFull
    backendRaise slackFail
    [("type", .str "event_callback"),
     ("event", .obj [("type", .str "message"), ("channel_type", .str "im"),
       ("text", .str "hi"), ("channel", .str "D1")])]
    [("type", .str "message"), ("channel_type", .str "im"),
     ("text", .str "hi"), ("channel", .str "D1")]
    (.str "hi") "tok" "app1"
    rfl rfl rfl rfl
    (Or.inr ⟨rfl, rfl, rfl, rfl⟩)
    (Or.inr ⟨by decide, Or.inl rfl⟩) rfl (by decide) rfl
    (fun _ => rfl)
  exact h

end SlackBotNext
